import Mathlib

/-!
Shallow embedding of the selection/operation engine of the file manager
(`src/futils.py`, `src/ui.py`).

Modelling choices:
* `ErrorChoice` embeds the enumeration of `ui.py`.
* The three injected collaborators (filesystem gateway, path resolution,
  user interface) are pure functions gathered in an `Env` record: a gateway
  call either succeeds (`none`) or fails with a human-readable message
  (`some msg`), mirroring Python exceptions; `errorChoice` gives the
  decision the user would return for a given prompt message.
* Every engine operation returns, besides its integer result and updated
  state, the ordered list of observable `Event`s (gateway invocations with
  their arguments, `ui.error` reports, `ui.error_choice` prompts), so that
  claims about which collaborator is invoked, how often, in which order and
  with which arguments become statements about the returned trace.
* `ManagerState` carries the `FileSelector` selection list together with
  the `FileManager.ignore_all_errors` flag; `get_and_reset` is the
  take-and-clear operation of `FileSelector`.
-/

/-- Embeds `ErrorChoice` of `src/ui.py` (ordinals 0, 1, 2). -/
inductive ErrorChoice
  | IGNORE
  | IGNORE_ALL
  | STOP
  deriving DecidableEq, Repr

/-- Observable side effects of one engine call: filesystem gateway
invocations with their exact arguments, `ui.error` reports and
`ui.error_choice` prompts, in execution order. -/
inductive Event
  | uiError (msg : String)
  | uiErrorChoice (msg : String)
  | fsCopy (src dest : String)
  | fsMove (src dest : String)
  | fsDelete (path : String)
  deriving DecidableEq, Repr

/-- The injected collaborators of `FileManager`, as pure functions.
`pathStr p` models Python `str(Path(p))` (path normalization);
`resolveFails p` is `some detail` when `Path(p).resolve()` raises an
`OSError`/`ValueError` with message `detail`, else `none`; the three
gateway fields are `some errMsg` when the corresponding `FileSystem`
call raises, else `none`; `errorChoice msg` is the decision returned by
`ui.error_choice msg`. -/
structure Env where
  pathStr : String → String
  resolveFails : String → Option String
  copyFails : String → String → Option String
  moveFails : String → String → Option String
  deleteFails : String → Option String
  errorChoice : String → ErrorChoice

/-- State held by the engine: the `FileSelector.selected_files` list and
the `FileManager.ignore_all_errors` flag. -/
structure ManagerState where
  selected_files : List String
  ignore_all_errors : Bool
  deriving DecidableEq, Repr

/-- Embeds `FileSelector.__init__` (empty selection) together with
`FileManager.__init__` (`ignore_all_errors = False`). -/
def initState : ManagerState :=
  { selected_files := [], ignore_all_errors := false }

/-- Embeds `FileSelector.get_and_reset`: return a copy of the current
selection and clear the stored one. The first component is the returned
list, the second the selection left behind. -/
def get_and_reset (selected_files : List String) : List String × List String :=
  (selected_files, [])

/-- Embeds the exception raised inside `FileManager._validate_path`:
`some detail` when validation fails with message `detail` (the length
check on `str(Path(path))` raising `OSError("Path too long")`, else a
resolution failure), `none` when the path is valid. -/
def validateDetail (env : Env) (path : String) : Option String :=
  if (env.pathStr path).length > 255 then some "Path too long"
  else env.resolveFails path

/-- Embeds `FileManager._validate_path`: returns whether the path is
valid together with the `ui.error` report emitted on failure. -/
def validate_path (env : Env) (path : String) : Bool × List Event :=
  match validateDetail env path with
  | none => (true, [])
  | some e => (false, [Event.uiError ("Invalid path: " ++ e)])

/-- Embeds `FileManager._handle_operation_error`: always report
`"<operation>: <error>"` via `ui.error`; prompt via `ui.error_choice`
with the same message only when `ignore_all_errors` is false, otherwise
return `IGNORE_ALL` without prompting. -/
def handle_operation_error (env : Env) (ignoreAll : Bool) (operation errMsg : String) :
    ErrorChoice × List Event :=
  let msg := operation ++ ": " ++ errMsg
  if !ignoreAll then (env.errorChoice msg, [Event.uiError msg, Event.uiErrorChoice msg])
  else (ErrorChoice.IGNORE_ALL, [Event.uiError msg])

/-- Embeds the per-item loop that `copy_files`, `move_files` and
`delete_files` share verbatim: validate each path (an invalid one is
skipped after its `ui.error` report from `_validate_path`), attempt the
gateway operation (`attempt file = some err` when it raises), on failure
consult `handle_operation_error` and apply the decision: `STOP` breaks
out of the loop, `IGNORE_ALL` sets the flag, `IGNORE` continues.
Returns the success count, the final flag and the event trace;
`attemptEvent file` is the gateway invocation record for `file`. -/
def batchLoop (env : Env) (operation : String) (attempt : String → Option String)
    (attemptEvent : String → Event) :
    Bool → Nat → List String → Nat × Bool × List Event
  | ignoreAll, count, [] => (count, ignoreAll, [])
  | ignoreAll, count, file :: rest =>
    match validate_path env file with
    | (false, evs) =>
      let r := batchLoop env operation attempt attemptEvent ignoreAll count rest
      (r.1, r.2.1, evs ++ r.2.2)
    | (true, _) =>
      match attempt file with
      | none =>
        let r := batchLoop env operation attempt attemptEvent ignoreAll (count + 1) rest
        (r.1, r.2.1, attemptEvent file :: r.2.2)
      | some err =>
        match handle_operation_error env ignoreAll operation err with
        | (ErrorChoice.STOP, evs) => (count, ignoreAll, attemptEvent file :: evs)
        | (ErrorChoice.IGNORE_ALL, evs) =>
          let r := batchLoop env operation attempt attemptEvent true count rest
          (r.1, r.2.1, attemptEvent file :: (evs ++ r.2.2))
        | (ErrorChoice.IGNORE, evs) =>
          let r := batchLoop env operation attempt attemptEvent ignoreAll count rest
          (r.1, r.2.1, attemptEvent file :: (evs ++ r.2.2))

/-- Embeds `FileManager.copy_files`: validate the destination (abort
with 0 when invalid, without consuming the selection), consume the
selection via `get_and_reset`, then run the per-item loop with
operation label `"Copy"` and gateway call `fs.copy(file, destination)`. -/
def copy_files (env : Env) (st : ManagerState) (destination : String) :
    Nat × ManagerState × List Event :=
  match validate_path env destination with
  | (false, evs) => (0, st, evs)
  | (true, _) =>
    let taken := get_and_reset st.selected_files
    let r := batchLoop env "Copy" (fun file => env.copyFails file destination)
      (fun file => Event.fsCopy file destination) st.ignore_all_errors 0 taken.1
    (r.1, { selected_files := taken.2, ignore_all_errors := r.2.1 }, r.2.2)

/-- Embeds `FileManager.move_files`: identical to `copy_files` with
label `"Move"` and gateway call `fs.move(file, destination)`. -/
def move_files (env : Env) (st : ManagerState) (destination : String) :
    Nat × ManagerState × List Event :=
  match validate_path env destination with
  | (false, evs) => (0, st, evs)
  | (true, _) =>
    let taken := get_and_reset st.selected_files
    let r := batchLoop env "Move" (fun file => env.moveFails file destination)
      (fun file => Event.fsMove file destination) st.ignore_all_errors 0 taken.1
    (r.1, { selected_files := taken.2, ignore_all_errors := r.2.1 }, r.2.2)

/-- Embeds `FileManager.delete_files`: no destination, label `"Delete"`,
gateway call `fs.delete(file)`. -/
def delete_files (env : Env) (st : ManagerState) :
    Nat × ManagerState × List Event :=
  let taken := get_and_reset st.selected_files
  let r := batchLoop env "Delete" (fun file => env.deleteFails file)
    (fun file => Event.fsDelete file) st.ignore_all_errors 0 taken.1
  (r.1, { selected_files := taken.2, ignore_all_errors := r.2.1 }, r.2.2)

/-- Embeds `os.path.join(a, b)` (POSIX rules, two components), used by
`FileExplorer.subset` to build full paths. -/
def joinPath (a b : String) : String :=
  if b.startsWith "/" then b
  else if a = "" ∨ a.endsWith "/" then a ++ b
  else a ++ "/" ++ b

/-- Embeds `FileExplorer.subset`: keep each index that satisfies
`0 <= index < len(contents)`, resolving it to the full path of the
corresponding entry; other indices are dropped. -/
def subset (current_path : String) (contents : List String) :
    List Int → List String
  | [] => []
  | index :: rest =>
    if 0 ≤ index ∧ index < (contents.length : Int) then
      joinPath current_path (contents.getD index.toNat "") ::
        subset current_path contents rest
    else
      subset current_path contents rest

/-! Helper lemmas: one-step unfoldings of `batchLoop` and the wrappers. -/

theorem batchLoop_nil (env : Env) (operation : String) (attempt : String → Option String)
    (attemptEvent : String → Event) (ignoreAll : Bool) (count : Nat) :
    batchLoop env operation attempt attemptEvent ignoreAll count [] =
      (count, ignoreAll, []) := rfl

theorem batchLoop_cons_invalid (env : Env) (operation : String)
    (attempt : String → Option String) (attemptEvent : String → Event)
    (ignoreAll : Bool) (count : Nat) (file : String) (rest : List String) (e : String)
    (h : validateDetail env file = some e) :
    batchLoop env operation attempt attemptEvent ignoreAll count (file :: rest) =
      ((batchLoop env operation attempt attemptEvent ignoreAll count rest).1,
       (batchLoop env operation attempt attemptEvent ignoreAll count rest).2.1,
       Event.uiError ("Invalid path: " ++ e) ::
         (batchLoop env operation attempt attemptEvent ignoreAll count rest).2.2) := by
  simp [batchLoop, validate_path, h]

theorem batchLoop_cons_ok (env : Env) (operation : String)
    (attempt : String → Option String) (attemptEvent : String → Event)
    (ignoreAll : Bool) (count : Nat) (file : String) (rest : List String)
    (hv : validateDetail env file = none) (ha : attempt file = none) :
    batchLoop env operation attempt attemptEvent ignoreAll count (file :: rest) =
      ((batchLoop env operation attempt attemptEvent ignoreAll (count + 1) rest).1,
       (batchLoop env operation attempt attemptEvent ignoreAll (count + 1) rest).2.1,
       attemptEvent file ::
         (batchLoop env operation attempt attemptEvent ignoreAll (count + 1) rest).2.2) := by
  simp [batchLoop, validate_path, hv, ha]

theorem batchLoop_cons_fail_flag (env : Env) (operation : String)
    (attempt : String → Option String) (attemptEvent : String → Event)
    (count : Nat) (file : String) (rest : List String) (err : String)
    (hv : validateDetail env file = none) (ha : attempt file = some err) :
    batchLoop env operation attempt attemptEvent true count (file :: rest) =
      ((batchLoop env operation attempt attemptEvent true count rest).1,
       (batchLoop env operation attempt attemptEvent true count rest).2.1,
       attemptEvent file :: Event.uiError (operation ++ ": " ++ err) ::
         (batchLoop env operation attempt attemptEvent true count rest).2.2) := by
  simp [batchLoop, validate_path, hv, ha, handle_operation_error]

theorem batchLoop_cons_fail_stop (env : Env) (operation : String)
    (attempt : String → Option String) (attemptEvent : String → Event)
    (count : Nat) (file : String) (rest : List String) (err : String)
    (hv : validateDetail env file = none) (ha : attempt file = some err)
    (hc : env.errorChoice (operation ++ ": " ++ err) = ErrorChoice.STOP) :
    batchLoop env operation attempt attemptEvent false count (file :: rest) =
      (count, false,
       [attemptEvent file, Event.uiError (operation ++ ": " ++ err),
        Event.uiErrorChoice (operation ++ ": " ++ err)]) := by
  simp [batchLoop, validate_path, hv, ha, handle_operation_error, hc]

theorem batchLoop_cons_fail_ignore_all (env : Env) (operation : String)
    (attempt : String → Option String) (attemptEvent : String → Event)
    (count : Nat) (file : String) (rest : List String) (err : String)
    (hv : validateDetail env file = none) (ha : attempt file = some err)
    (hc : env.errorChoice (operation ++ ": " ++ err) = ErrorChoice.IGNORE_ALL) :
    batchLoop env operation attempt attemptEvent false count (file :: rest) =
      ((batchLoop env operation attempt attemptEvent true count rest).1,
       (batchLoop env operation attempt attemptEvent true count rest).2.1,
       attemptEvent file :: Event.uiError (operation ++ ": " ++ err) ::
         Event.uiErrorChoice (operation ++ ": " ++ err) ::
         (batchLoop env operation attempt attemptEvent true count rest).2.2) := by
  simp [batchLoop, validate_path, hv, ha, handle_operation_error, hc]

theorem batchLoop_cons_fail_ignore (env : Env) (operation : String)
    (attempt : String → Option String) (attemptEvent : String → Event)
    (count : Nat) (file : String) (rest : List String) (err : String)
    (hv : validateDetail env file = none) (ha : attempt file = some err)
    (hc : env.errorChoice (operation ++ ": " ++ err) = ErrorChoice.IGNORE) :
    batchLoop env operation attempt attemptEvent false count (file :: rest) =
      ((batchLoop env operation attempt attemptEvent false count rest).1,
       (batchLoop env operation attempt attemptEvent false count rest).2.1,
       attemptEvent file :: Event.uiError (operation ++ ": " ++ err) ::
         Event.uiErrorChoice (operation ++ ": " ++ err) ::
         (batchLoop env operation attempt attemptEvent false count rest).2.2) := by
  simp [batchLoop, validate_path, hv, ha, handle_operation_error, hc]

theorem batchLoop_prefix_ok (env : Env) (operation : String)
    (attempt : String → Option String) (attemptEvent : String → Event)
    (ignoreAll : Bool) (pre l : List String)
    (hval : ∀ f ∈ pre, validateDetail env f = none)
    (hok : ∀ f ∈ pre, attempt f = none) :
    ∀ count : Nat,
      batchLoop env operation attempt attemptEvent ignoreAll count (pre ++ l) =
        ((batchLoop env operation attempt attemptEvent ignoreAll
            (count + pre.length) l).1,
         (batchLoop env operation attempt attemptEvent ignoreAll
            (count + pre.length) l).2.1,
         pre.map attemptEvent ++
           (batchLoop env operation attempt attemptEvent ignoreAll
              (count + pre.length) l).2.2) := by
  induction pre with
  | nil => intro count; simp
  | cons f rest ih =>
    intro count
    rw [List.cons_append,
      batchLoop_cons_ok env operation attempt attemptEvent ignoreAll count f (rest ++ l)
        (hval f (by simp)) (hok f (by simp)),
      ih (fun g hg => hval g (by simp [hg])) (fun g hg => hok g (by simp [hg])) (count + 1)]
    have harith : count + 1 + rest.length = count + (f :: rest).length := by
      simp; omega
    rw [harith]
    simp

theorem batchLoop_all_fail_flag (env : Env) (operation : String)
    (attempt : String → Option String) (attemptEvent : String → Event)
    (errOf : String → String) (files : List String)
    (hval : ∀ f ∈ files, validateDetail env f = none)
    (hfail : ∀ f ∈ files, attempt f = some (errOf f)) :
    ∀ count : Nat,
      batchLoop env operation attempt attemptEvent true count files =
        (count, true,
         files.flatMap (fun f =>
           [attemptEvent f, Event.uiError (operation ++ ": " ++ errOf f)])) := by
  induction files with
  | nil => intro count; simp [batchLoop_nil]
  | cons f rest ih =>
    intro count
    rw [batchLoop_cons_fail_flag env operation attempt attemptEvent count f rest (errOf f)
        (hval f (by simp)) (hfail f (by simp)),
      ih (fun g hg => hval g (by simp [hg])) (fun g hg => hfail g (by simp [hg])) count]
    simp

theorem batchLoop_count_le (env : Env) (operation : String)
    (attempt : String → Option String) (attemptEvent : String → Event)
    (files : List String) :
    ∀ (ignoreAll : Bool) (count : Nat),
      (batchLoop env operation attempt attemptEvent ignoreAll count files).1 ≤
        count + files.length := by
  induction files with
  | nil => intro ia c; simp [batchLoop_nil]
  | cons f rest ih =>
    intro ia c
    cases hv : validateDetail env f with
    | some e =>
      rw [batchLoop_cons_invalid env operation attempt attemptEvent ia c f rest e hv]
      have := ih ia c
      simp only [List.length_cons]
      omega
    | none =>
      cases ha : attempt f with
      | none =>
        rw [batchLoop_cons_ok env operation attempt attemptEvent ia c f rest hv ha]
        have := ih ia (c + 1)
        simp only [List.length_cons]
        omega
      | some err =>
        cases ia with
        | true =>
          rw [batchLoop_cons_fail_flag env operation attempt attemptEvent c f rest err hv ha]
          have := ih true c
          simp only [List.length_cons]
          omega
        | false =>
          cases hc : env.errorChoice (operation ++ ": " ++ err) with
          | STOP =>
            rw [batchLoop_cons_fail_stop env operation attempt attemptEvent c f rest err
                hv ha hc]
            simp only [List.length_cons]
            omega
          | IGNORE_ALL =>
            rw [batchLoop_cons_fail_ignore_all env operation attempt attemptEvent c f rest err
                hv ha hc]
            have := ih true c
            simp only [List.length_cons]
            omega
          | IGNORE =>
            rw [batchLoop_cons_fail_ignore env operation attempt attemptEvent c f rest err
                hv ha hc]
            have := ih false c
            simp only [List.length_cons]
            omega

theorem batchLoop_flag_true (env : Env) (operation : String)
    (attempt : String → Option String) (attemptEvent : String → Event)
    (files : List String) :
    ∀ count : Nat,
      (batchLoop env operation attempt attemptEvent true count files).2.1 = true := by
  induction files with
  | nil => intro c; simp [batchLoop_nil]
  | cons f rest ih =>
    intro c
    cases hv : validateDetail env f with
    | some e =>
      rw [batchLoop_cons_invalid env operation attempt attemptEvent true c f rest e hv]
      exact ih c
    | none =>
      cases ha : attempt f with
      | none =>
        rw [batchLoop_cons_ok env operation attempt attemptEvent true c f rest hv ha]
        exact ih (c + 1)
      | some err =>
        rw [batchLoop_cons_fail_flag env operation attempt attemptEvent c f rest err hv ha]
        exact ih c

theorem batchLoop_no_prompt_flag (env : Env) (operation : String)
    (attempt : String → Option String) (attemptEvent : String → Event)
    (hne : ∀ f m, attemptEvent f ≠ Event.uiErrorChoice m) (files : List String) :
    ∀ (count : Nat) (m : String),
      Event.uiErrorChoice m ∉
        (batchLoop env operation attempt attemptEvent true count files).2.2 := by
  induction files with
  | nil => intro c m; simp [batchLoop_nil]
  | cons f rest ih =>
    intro c m
    cases hv : validateDetail env f with
    | some e =>
      rw [batchLoop_cons_invalid env operation attempt attemptEvent true c f rest e hv]
      simp only [List.mem_cons, not_or]
      exact ⟨by simp, ih c m⟩
    | none =>
      cases ha : attempt f with
      | none =>
        rw [batchLoop_cons_ok env operation attempt attemptEvent true c f rest hv ha]
        simp only [List.mem_cons, not_or]
        exact ⟨fun hcontra => hne f m hcontra.symm, ih (c + 1) m⟩
      | some err =>
        rw [batchLoop_cons_fail_flag env operation attempt attemptEvent c f rest err hv ha]
        simp only [List.mem_cons, not_or]
        exact ⟨fun hcontra => hne f m hcontra.symm, by simp, ih c m⟩

theorem batchLoop_flag_false (env : Env) (operation : String)
    (attempt : String → Option String) (attemptEvent : String → Event)
    (hnc : ∀ m, env.errorChoice m ≠ ErrorChoice.IGNORE_ALL) (files : List String) :
    ∀ count : Nat,
      (batchLoop env operation attempt attemptEvent false count files).2.1 = false := by
  induction files with
  | nil => intro c; simp [batchLoop_nil]
  | cons f rest ih =>
    intro c
    cases hv : validateDetail env f with
    | some e =>
      rw [batchLoop_cons_invalid env operation attempt attemptEvent false c f rest e hv]
      exact ih c
    | none =>
      cases ha : attempt f with
      | none =>
        rw [batchLoop_cons_ok env operation attempt attemptEvent false c f rest hv ha]
        exact ih (c + 1)
      | some err =>
        cases hc : env.errorChoice (operation ++ ": " ++ err) with
        | STOP =>
          rw [batchLoop_cons_fail_stop env operation attempt attemptEvent c f rest err
              hv ha hc]
        | IGNORE_ALL => exact absurd hc (hnc _)
        | IGNORE =>
          rw [batchLoop_cons_fail_ignore env operation attempt attemptEvent c f rest err
              hv ha hc]
          exact ih c

theorem copy_files_invalid_dest (env : Env) (st : ManagerState) (destination d : String)
    (h : validateDetail env destination = some d) :
    copy_files env st destination =
      (0, st, [Event.uiError ("Invalid path: " ++ d)]) := by
  simp [copy_files, validate_path, h]

theorem move_files_invalid_dest (env : Env) (st : ManagerState) (destination d : String)
    (h : validateDetail env destination = some d) :
    move_files env st destination =
      (0, st, [Event.uiError ("Invalid path: " ++ d)]) := by
  simp [move_files, validate_path, h]

theorem copy_files_valid_dest (env : Env) (st : ManagerState) (destination : String)
    (h : validateDetail env destination = none) :
    copy_files env st destination =
      ((batchLoop env "Copy" (fun file => env.copyFails file destination)
          (fun file => Event.fsCopy file destination) st.ignore_all_errors 0
          st.selected_files).1,
       { selected_files := [],
         ignore_all_errors :=
           (batchLoop env "Copy" (fun file => env.copyFails file destination)
             (fun file => Event.fsCopy file destination) st.ignore_all_errors 0
             st.selected_files).2.1 },
       (batchLoop env "Copy" (fun file => env.copyFails file destination)
          (fun file => Event.fsCopy file destination) st.ignore_all_errors 0
          st.selected_files).2.2) := by
  simp [copy_files, validate_path, h, get_and_reset]

theorem move_files_valid_dest (env : Env) (st : ManagerState) (destination : String)
    (h : validateDetail env destination = none) :
    move_files env st destination =
      ((batchLoop env "Move" (fun file => env.moveFails file destination)
          (fun file => Event.fsMove file destination) st.ignore_all_errors 0
          st.selected_files).1,
       { selected_files := [],
         ignore_all_errors :=
           (batchLoop env "Move" (fun file => env.moveFails file destination)
             (fun file => Event.fsMove file destination) st.ignore_all_errors 0
             st.selected_files).2.1 },
       (batchLoop env "Move" (fun file => env.moveFails file destination)
          (fun file => Event.fsMove file destination) st.ignore_all_errors 0
          st.selected_files).2.2) := by
  simp [move_files, validate_path, h, get_and_reset]

theorem delete_files_def (env : Env) (st : ManagerState) :
    delete_files env st =
      ((batchLoop env "Delete" (fun file => env.deleteFails file)
          (fun file => Event.fsDelete file) st.ignore_all_errors 0
          st.selected_files).1,
       { selected_files := [],
         ignore_all_errors :=
           (batchLoop env "Delete" (fun file => env.deleteFails file)
             (fun file => Event.fsDelete file) st.ignore_all_errors 0
             st.selected_files).2.1 },
       (batchLoop env "Delete" (fun file => env.deleteFails file)
          (fun file => Event.fsDelete file) st.ignore_all_errors 0
          st.selected_files).2.2) := by
  simp [delete_files, get_and_reset]

/-! Concrete environments used by witnesses and counterexamples. -/

/-- Environment in which every path validates and every gateway call
succeeds; prompts would answer IGNORE. -/
def okEnv : Env :=
  { pathStr := id, resolveFails := fun _ => none,
    copyFails := fun _ _ => none, moveFails := fun _ _ => none,
    deleteFails := fun _ => none, errorChoice := fun _ => ErrorChoice.IGNORE }

/-- Environment in which copying `"b.txt"` fails and the user answers
STOP. -/
def stopEnv : Env :=
  { pathStr := id, resolveFails := fun _ => none,
    copyFails := fun src _ => if src = "b.txt" then some "boom" else none,
    moveFails := fun _ _ => none, deleteFails := fun _ => none,
    errorChoice := fun _ => ErrorChoice.STOP }

/-- Environment in which every gateway call fails with "denied" and the
user answers IGNORE_ALL. -/
def failEnv : Env :=
  { pathStr := id, resolveFails := fun _ => none,
    copyFails := fun _ _ => some "denied",
    moveFails := fun _ _ => some "denied",
    deleteFails := fun _ => some "denied",
    errorChoice := fun _ => ErrorChoice.IGNORE_ALL }

/-- Environment in which resolving the path `"bad"` raises with message
"boom" and everything else succeeds. -/
def exEnv : Env :=
  { pathStr := id,
    resolveFails := fun p => if p = "bad" then some "boom" else none,
    copyFails := fun _ _ => none, moveFails := fun _ _ => none,
    deleteFails := fun _ => none, errorChoice := fun _ => ErrorChoice.STOP }

/-- A 256-character path, longer than the 255-character validation limit. -/
def longPath : String := String.mk (List.replicate 256 'a')

/-! Claim theorems. -/

/-- C1: for every batch B and destination D where D and every path in B
pass validation and the gateway never fails on them, `copy_files`
(resp. `move_files`) returns `B.length` and the trace consists of exactly
one gateway copy (resp. move) invocation per item of B, in B's order,
each with arguments (item, D). -/
theorem C1_success_counts_and_invocations (env : Env) (B : List String) (D : String)
    (ia : Bool)
    (hD : validateDetail env D = none)
    (hB : ∀ f ∈ B, validateDetail env f = none)
    (hcopy : ∀ f ∈ B, env.copyFails f D = none)
    (hmove : ∀ f ∈ B, env.moveFails f D = none) :
    copy_files env ⟨B, ia⟩ D =
      (B.length, ⟨[], ia⟩, B.map (fun f => Event.fsCopy f D)) ∧
    move_files env ⟨B, ia⟩ D =
      (B.length, ⟨[], ia⟩, B.map (fun f => Event.fsMove f D)) := by
  constructor
  · rw [copy_files_valid_dest env ⟨B, ia⟩ D hD]
    dsimp only
    have h := batchLoop_prefix_ok env "Copy" (fun file => env.copyFails file D)
      (fun file => Event.fsCopy file D) ia B [] hB hcopy 0
    rw [List.append_nil] at h
    rw [h]
    simp [batchLoop_nil]
  · rw [move_files_valid_dest env ⟨B, ia⟩ D hD]
    dsimp only
    have h := batchLoop_prefix_ok env "Move" (fun file => env.moveFails file D)
      (fun file => Event.fsMove file D) ia B [] hB hmove 0
    rw [List.append_nil] at h
    rw [h]
    simp [batchLoop_nil]

theorem C1_witness :
    copy_files okEnv ⟨["file1.txt", "file2.txt"], false⟩ "/dest" =
      (2, ⟨[], false⟩,
       [Event.fsCopy "file1.txt" "/dest", Event.fsCopy "file2.txt" "/dest"]) ∧
    move_files okEnv ⟨["file1.txt", "file2.txt"], false⟩ "/dest" =
      (2, ⟨[], false⟩,
       [Event.fsMove "file1.txt" "/dest", Event.fsMove "file2.txt" "/dest"]) := by
  have h := C1_success_counts_and_invocations okEnv ["file1.txt", "file2.txt"] "/dest" false
    (by decide) (by decide) (by decide) (by decide)
  exact ⟨h.1.trans (by decide), h.2.trans (by decide)⟩

/-- C2 (amended): a per-item path that fails validation is skipped with
exactly one `ui.error` report "Invalid path: <detail>" coming from
`_validate_path` (the claim stated that no error is reported, which the
code refutes); `ui.error_choice` is not invoked for it, the success count
is not incremented, and processing continues with the rest of the batch. -/
theorem C2_invalid_item_skipped (env : Env) (ia : Bool) (D d f : String)
    (rest : List String)
    (hD : validateDetail env D = none)
    (hf : validateDetail env f = some d) :
    copy_files env ⟨f :: rest, ia⟩ D =
      ((copy_files env ⟨rest, ia⟩ D).1,
       (copy_files env ⟨rest, ia⟩ D).2.1,
       Event.uiError ("Invalid path: " ++ d) ::
         (copy_files env ⟨rest, ia⟩ D).2.2) := by
  rw [copy_files_valid_dest env ⟨f :: rest, ia⟩ D hD,
    copy_files_valid_dest env ⟨rest, ia⟩ D hD]
  dsimp only
  rw [batchLoop_cons_invalid env "Copy" (fun file => env.copyFails file D)
    (fun file => Event.fsCopy file D) ia 0 f rest d hf]

theorem C2_witness :
    copy_files exEnv ⟨"bad" :: ["good"], false⟩ "/dest" =
      ((copy_files exEnv ⟨["good"], false⟩ "/dest").1,
       (copy_files exEnv ⟨["good"], false⟩ "/dest").2.1,
       Event.uiError ("Invalid path: " ++ "boom") ::
         (copy_files exEnv ⟨["good"], false⟩ "/dest").2.2) :=
  C2_invalid_item_skipped exEnv false "/dest" "boom" "bad" ["good"]
    (by decide) (by decide)

/-- C2 counterexample: with an item whose validation fails (resolution of
"bad" raises "boom"), the run does report an error — the trace contains
`ui.error "Invalid path: boom"` — refuting "no error is reported"; the
item is still skipped (count 1 for the remaining valid item) and no
prompt occurs. -/
theorem C2_counterexample :
    validateDetail exEnv "bad" = some "boom" ∧
    copy_files exEnv ⟨["bad", "good"], false⟩ "/dest" =
      (1, ⟨[], false⟩,
       [Event.uiError "Invalid path: boom", Event.fsCopy "good" "/dest"]) ∧
    Event.uiError "Invalid path: boom" ∈
      (copy_files exEnv ⟨["bad", "good"], false⟩ "/dest").2.2 := by
  exact ⟨by decide, by decide, by decide⟩

/-- C3: when the gateway fails on an item and the resulting decision is
STOP, the loop terminates immediately: with a prefix `pre` of valid,
succeeding items followed by a failing item `f`, the trace contains no
event for the items after `f` (they are neither validated nor attempted),
the failing item does not increment the count, and the count accumulated
so far (`pre.length`) is returned. -/
theorem C3_stop_terminates_loop (env : Env) (pre : List String) (f : String)
    (rest : List String) (D err : String)
    (hD : validateDetail env D = none)
    (hpreval : ∀ g ∈ pre, validateDetail env g = none)
    (hpreok : ∀ g ∈ pre, env.copyFails g D = none)
    (hfval : validateDetail env f = none)
    (hffail : env.copyFails f D = some err)
    (hstop : env.errorChoice ("Copy: " ++ err) = ErrorChoice.STOP) :
    copy_files env ⟨pre ++ f :: rest, false⟩ D =
      (pre.length, ⟨[], false⟩,
       pre.map (fun g => Event.fsCopy g D) ++
         [Event.fsCopy f D, Event.uiError ("Copy: " ++ err),
          Event.uiErrorChoice ("Copy: " ++ err)]) := by
  rw [copy_files_valid_dest env ⟨pre ++ f :: rest, false⟩ D hD]
  dsimp only
  rw [batchLoop_prefix_ok env "Copy" (fun file => env.copyFails file D)
    (fun file => Event.fsCopy file D) false pre (f :: rest) hpreval hpreok 0]
  rw [batchLoop_cons_fail_stop env "Copy" (fun file => env.copyFails file D)
    (fun file => Event.fsCopy file D) (0 + pre.length) f rest err hfval hffail hstop]
  simp

theorem C3_witness :
    copy_files stopEnv ⟨["a.txt", "b.txt", "c.txt"], false⟩ "/dest" =
      (1, ⟨[], false⟩,
       [Event.fsCopy "a.txt" "/dest", Event.fsCopy "b.txt" "/dest",
        Event.uiError "Copy: boom", Event.uiErrorChoice "Copy: boom"]) := by
  have h := C3_stop_terminates_loop stopEnv ["a.txt"] "b.txt" ["c.txt"] "/dest" "boom"
    (by decide) (by decide) (by decide) (by decide) (by decide) (by decide)
  exact h.trans (by decide)

/-- C4: every gateway failure is reported via `ui.error` with the message
"<OperationName>: <error>" (labels "Copy", "Move", "Delete");
`ui.error_choice` is called with the same message only while the
ignore-all flag is false. With all items failing and the first decision
IGNORE_ALL, the prompt occurs exactly once, every remaining item is still
attempted and reported without a prompt, and the result is 0; with the
flag already true, move and delete failures are reported but never
prompted. -/
theorem C4_ignore_all_policy (env : Env) (f : String) (rest : List String)
    (D : String) (errOf : String → String) (p e : String)
    (hD : validateDetail env D = none)
    (hval : ∀ g ∈ f :: rest, validateDetail env g = none)
    (hfail : ∀ g ∈ f :: rest, env.copyFails g D = some (errOf g))
    (hchoice : env.errorChoice ("Copy: " ++ errOf f) = ErrorChoice.IGNORE_ALL)
    (hpval : validateDetail env p = none)
    (hmfail : env.moveFails p D = some e)
    (hdfail : env.deleteFails p = some e) :
    copy_files env ⟨f :: rest, false⟩ D =
      (0, ⟨[], true⟩,
       Event.fsCopy f D :: Event.uiError ("Copy: " ++ errOf f) ::
         Event.uiErrorChoice ("Copy: " ++ errOf f) ::
         rest.flatMap (fun g =>
           [Event.fsCopy g D, Event.uiError ("Copy: " ++ errOf g)])) ∧
    move_files env ⟨[p], true⟩ D =
      (0, ⟨[], true⟩, [Event.fsMove p D, Event.uiError ("Move: " ++ e)]) ∧
    delete_files env ⟨[p], true⟩ =
      (0, ⟨[], true⟩, [Event.fsDelete p, Event.uiError ("Delete: " ++ e)]) := by
  refine ⟨?_, ?_, ?_⟩
  · rw [copy_files_valid_dest env ⟨f :: rest, false⟩ D hD]
    dsimp only
    rw [batchLoop_cons_fail_ignore_all env "Copy" (fun file => env.copyFails file D)
      (fun file => Event.fsCopy file D) 0 f rest (errOf f)
      (hval f (by simp)) (hfail f (by simp)) hchoice]
    rw [batchLoop_all_fail_flag env "Copy" (fun file => env.copyFails file D)
      (fun file => Event.fsCopy file D) errOf rest
      (fun g hg => hval g (by simp [hg])) (fun g hg => hfail g (by simp [hg])) 0]
    simp
  · rw [move_files_valid_dest env ⟨[p], true⟩ D hD]
    dsimp only
    rw [batchLoop_cons_fail_flag env "Move" (fun file => env.moveFails file D)
      (fun file => Event.fsMove file D) 0 p [] e hpval hmfail]
    simp [batchLoop_nil]
  · rw [delete_files_def env ⟨[p], true⟩]
    dsimp only
    rw [batchLoop_cons_fail_flag env "Delete" (fun file => env.deleteFails file)
      (fun file => Event.fsDelete file) 0 p [] e hpval hdfail]
    simp [batchLoop_nil]

theorem C4_witness :
    copy_files failEnv ⟨["a.txt", "b.txt", "c.txt"], false⟩ "/dest" =
      (0, ⟨[], true⟩,
       [Event.fsCopy "a.txt" "/dest", Event.uiError "Copy: denied",
        Event.uiErrorChoice "Copy: denied",
        Event.fsCopy "b.txt" "/dest", Event.uiError "Copy: denied",
        Event.fsCopy "c.txt" "/dest", Event.uiError "Copy: denied"]) ∧
    move_files failEnv ⟨["p.txt"], true⟩ "/dest" =
      (0, ⟨[], true⟩, [Event.fsMove "p.txt" "/dest", Event.uiError "Move: denied"]) ∧
    delete_files failEnv ⟨["p.txt"], true⟩ =
      (0, ⟨[], true⟩, [Event.fsDelete "p.txt", Event.uiError "Delete: denied"]) := by
  have h := C4_ignore_all_policy failEnv "a.txt" ["b.txt", "c.txt"] "/dest"
    (fun _ => "denied") "p.txt" "denied"
    (by decide) (by decide) (by decide) (by decide) (by decide) (by decide) (by decide)
  exact ⟨h.1.trans (by decide), h.2.1.trans (by decide), h.2.2.trans (by decide)⟩

/-- C5: when the destination fails validation, `copy_files` and
`move_files` return 0 with no gateway invocation and no consumption of
the selection; the whole trace is the single report
"Invalid path: <detail>" emitted by destination validation. -/
theorem C5_invalid_dest_aborts (env : Env) (st : ManagerState) (D d : String)
    (h : validateDetail env D = some d) :
    copy_files env st D = (0, st, [Event.uiError ("Invalid path: " ++ d)]) ∧
    move_files env st D = (0, st, [Event.uiError ("Invalid path: " ++ d)]) :=
  ⟨copy_files_invalid_dest env st D d h, move_files_invalid_dest env st D d h⟩

set_option maxRecDepth 4096 in
theorem C5_witness :
    copy_files okEnv initState longPath =
      (0, initState, [Event.uiError "Invalid path: Path too long"]) ∧
    move_files okEnv initState longPath =
      (0, initState, [Event.uiError "Invalid path: Path too long"]) := by
  have h := C5_invalid_dest_aborts okEnv initState longPath "Path too long" (by decide)
  exact ⟨h.1.trans (by decide), h.2.trans (by decide)⟩

/-- C6: selection consumption is one-shot: `get_and_reset` returns the
held selection and leaves the empty one behind (in particular it is safe
on an empty selection), so any batch operation called twice in a row
without an intervening selection returns 0 the second time. -/
theorem C6_one_shot_consumption :
    (∀ l : List String, get_and_reset l = (l, [])) ∧
    get_and_reset ([] : List String) = ([], []) ∧
    (∀ (env : Env) (st : ManagerState) (D : String),
      (copy_files env (copy_files env st D).2.1 D).1 = 0) ∧
    (∀ (env : Env) (st : ManagerState) (D : String),
      (move_files env (move_files env st D).2.1 D).1 = 0) ∧
    (∀ (env : Env) (st : ManagerState),
      (delete_files env (delete_files env st).2.1).1 = 0) := by
  refine ⟨fun l => rfl, rfl, ?_, ?_, ?_⟩
  · intro env st D
    cases h : validateDetail env D with
    | some d => rw [copy_files_invalid_dest env _ D d h]
    | none =>
      rw [copy_files_valid_dest env st D h, copy_files_valid_dest env _ D h]
      dsimp only
      rw [batchLoop_nil]
  · intro env st D
    cases h : validateDetail env D with
    | some d => rw [move_files_invalid_dest env _ D d h]
    | none =>
      rw [move_files_valid_dest env st D h, move_files_valid_dest env _ D h]
      dsimp only
      rw [batchLoop_nil]
  · intro env st
    rw [delete_files_def env st, delete_files_def env _]
    dsimp only
    rw [batchLoop_nil]

/-- C7: the ignore-all flag is false at construction, is set to true only
by an IGNORE_ALL decision, and is never reset: if it is true on entry it
is still true after any batch call, and no call entered with the flag
true ever invokes `ui.error_choice`; if no decision ever returns
IGNORE_ALL, the flag stays false. -/
theorem C7_ignore_all_flag_lifecycle :
    initState.ignore_all_errors = false ∧
    (∀ (env : Env) (st : ManagerState) (D : String), st.ignore_all_errors = true →
      (copy_files env st D).2.1.ignore_all_errors = true ∧
      (move_files env st D).2.1.ignore_all_errors = true ∧
      (delete_files env st).2.1.ignore_all_errors = true) ∧
    (∀ (env : Env) (st : ManagerState) (D m : String), st.ignore_all_errors = true →
      Event.uiErrorChoice m ∉ (copy_files env st D).2.2 ∧
      Event.uiErrorChoice m ∉ (move_files env st D).2.2 ∧
      Event.uiErrorChoice m ∉ (delete_files env st).2.2) ∧
    (∀ (env : Env) (st : ManagerState) (D : String),
      (∀ m, env.errorChoice m ≠ ErrorChoice.IGNORE_ALL) →
      st.ignore_all_errors = false →
      (copy_files env st D).2.1.ignore_all_errors = false ∧
      (move_files env st D).2.1.ignore_all_errors = false ∧
      (delete_files env st).2.1.ignore_all_errors = false) := by
  refine ⟨rfl, ?_, ?_, ?_⟩
  · intro env st D hst
    refine ⟨?_, ?_, ?_⟩
    · cases h : validateDetail env D with
      | some d => rw [copy_files_invalid_dest env st D d h]; exact hst
      | none =>
        rw [copy_files_valid_dest env st D h]
        dsimp only
        rw [hst, batchLoop_flag_true]
    · cases h : validateDetail env D with
      | some d => rw [move_files_invalid_dest env st D d h]; exact hst
      | none =>
        rw [move_files_valid_dest env st D h]
        dsimp only
        rw [hst, batchLoop_flag_true]
    · rw [delete_files_def env st]
      dsimp only
      rw [hst, batchLoop_flag_true]
  · intro env st D m hst
    refine ⟨?_, ?_, ?_⟩
    · cases h : validateDetail env D with
      | some d => rw [copy_files_invalid_dest env st D d h]; simp
      | none =>
        rw [copy_files_valid_dest env st D h]
        dsimp only
        rw [hst]
        exact batchLoop_no_prompt_flag env "Copy" _ _ (fun f n => by simp) _ 0 m
    · cases h : validateDetail env D with
      | some d => rw [move_files_invalid_dest env st D d h]; simp
      | none =>
        rw [move_files_valid_dest env st D h]
        dsimp only
        rw [hst]
        exact batchLoop_no_prompt_flag env "Move" _ _ (fun f n => by simp) _ 0 m
    · rw [delete_files_def env st]
      dsimp only
      rw [hst]
      exact batchLoop_no_prompt_flag env "Delete" _ _ (fun f n => by simp) _ 0 m
  · intro env st D hnc hst
    refine ⟨?_, ?_, ?_⟩
    · cases h : validateDetail env D with
      | some d => rw [copy_files_invalid_dest env st D d h]; exact hst
      | none =>
        rw [copy_files_valid_dest env st D h]
        dsimp only
        rw [hst, batchLoop_flag_false env "Copy" _ _ hnc]
    · cases h : validateDetail env D with
      | some d => rw [move_files_invalid_dest env st D d h]; exact hst
      | none =>
        rw [move_files_valid_dest env st D h]
        dsimp only
        rw [hst, batchLoop_flag_false env "Move" _ _ hnc]
    · rw [delete_files_def env st]
      dsimp only
      rw [hst, batchLoop_flag_false env "Delete" _ _ hnc]

theorem C7_witness :
    initState.ignore_all_errors = false ∧
    (copy_files okEnv ⟨[], true⟩ "/d").2.1.ignore_all_errors = true ∧
    Event.uiErrorChoice "m" ∉ (copy_files okEnv ⟨[], true⟩ "/d").2.2 ∧
    (copy_files okEnv ⟨[], false⟩ "/d").2.1.ignore_all_errors = false := by
  have h := C7_ignore_all_flag_lifecycle
  exact ⟨h.1, (h.2.1 okEnv ⟨[], true⟩ "/d" rfl).1,
    (h.2.2.1 okEnv ⟨[], true⟩ "/d" "m" rfl).1,
    (h.2.2.2 okEnv ⟨[], false⟩ "/d" (fun m h => ErrorChoice.noConfusion h) rfl).1⟩

/-- C8: for every batch call, whatever the validation results, gateway
failures and decisions, the returned count n satisfies
0 ≤ n ≤ |selection at invocation time|. -/
theorem C8_count_bounded (env : Env) (st : ManagerState) (D : String) :
    0 ≤ (copy_files env st D).1 ∧
    (copy_files env st D).1 ≤ st.selected_files.length ∧
    (move_files env st D).1 ≤ st.selected_files.length ∧
    (delete_files env st).1 ≤ st.selected_files.length := by
  refine ⟨Nat.zero_le _, ?_, ?_, ?_⟩
  · cases h : validateDetail env D with
    | some d => rw [copy_files_invalid_dest env st D d h]; exact Nat.zero_le _
    | none =>
      rw [copy_files_valid_dest env st D h]
      dsimp only
      have := batchLoop_count_le env "Copy" (fun file => env.copyFails file D)
        (fun file => Event.fsCopy file D) st.selected_files st.ignore_all_errors 0
      omega
  · cases h : validateDetail env D with
    | some d => rw [move_files_invalid_dest env st D d h]; exact Nat.zero_le _
    | none =>
      rw [move_files_valid_dest env st D h]
      dsimp only
      have := batchLoop_count_le env "Move" (fun file => env.moveFails file D)
        (fun file => Event.fsMove file D) st.selected_files st.ignore_all_errors 0
      omega
  · rw [delete_files_def env st]
    dsimp only
    have := batchLoop_count_le env "Delete" (fun file => env.deleteFails file)
      (fun file => Event.fsDelete file) st.selected_files st.ignore_all_errors 0
    omega

/-- C9: `subset` returns exactly the entries at the in-range indices
(0 ≤ index < number of listed entries), resolved to full paths, in the
order the indices were given; out-of-range indices are dropped from the
result (the function is total, no error is raised). -/
theorem C9_subset_in_range_indices (current_path : String) (contents : List String)
    (indices : List Int) :
    subset current_path contents indices =
      (indices.filter (fun index =>
          decide (0 ≤ index ∧ index < (contents.length : Int)))).map
        (fun index => joinPath current_path (contents.getD index.toNat "")) := by
  induction indices with
  | nil => rfl
  | cons i rest ih =>
    by_cases h : 0 ≤ i ∧ i < (contents.length : Int)
    · simp [subset, h, ih]
    · simp [subset, h, ih]

/-- C10: when `copy_files` or `move_files` aborts on an invalid
destination, the selection is not consumed: the state (including the
stored selection) is unchanged, so a subsequent batch call sees the full
selection. -/
theorem C10_invalid_dest_preserves_selection (env : Env) (st : ManagerState)
    (D d : String) (h : validateDetail env D = some d) :
    (copy_files env st D).2.1 = st ∧
    (move_files env st D).2.1 = st ∧
    delete_files env (copy_files env st D).2.1 = delete_files env st ∧
    delete_files env (move_files env st D).2.1 = delete_files env st := by
  rw [copy_files_invalid_dest env st D d h, move_files_invalid_dest env st D d h]
  exact ⟨rfl, rfl, rfl, rfl⟩

set_option maxRecDepth 4096 in
theorem C10_witness :
    (copy_files okEnv ⟨["x.txt"], false⟩ longPath).2.1 = ⟨["x.txt"], false⟩ ∧
    (move_files okEnv ⟨["x.txt"], false⟩ longPath).2.1 = ⟨["x.txt"], false⟩ := by
  have h := C10_invalid_dest_preserves_selection okEnv ⟨["x.txt"], false⟩ longPath
    "Path too long" (by decide)
  exact ⟨h.1, h.2.1⟩
